import Mathlib

/-
Verification development for the docking-score evaluation pipeline of the
diffusion-hopping repository (diffusion_hopping/analysis/evaluate/{qvina,
gnina, autodock_gpu}.py and config.py).

The Python code is shallowly embedded as follows:
- Strings are Lean `String`s; Python `str.split()` / `str.strip()` /
  `str.startswith` / `in` / `str.split(sep)` are re-implemented on the
  character list of the string (`splitToks`, `strTrim`, `strStarts`,
  `strContainsSub`, `strSplitOnChar`).
- Python `float(...)` applied to the numeric tokens of engine reports is
  modelled by `pyFloat : String → Option Dec`, where a `Dec` is an exact
  scaled decimal (mantissa, number of decimal places) whose rational value
  is `decVal`; a `none` result models the `ValueError` raise.  The code
  never computes with scores — it only parses and returns them — so this
  exact representation is faithful; exotic float syntax (exponents,
  inf/nan) does not occur in the report formats and is mapped to `none`.
- Filesystem paths are segment lists (`FPath`); the filesystem is an
  association list from paths to line lists (`FS`), newest entry first.
- Every external effect (subprocess invocation) is recorded in a
  `List ExtCall` trace, and the outcome of each external tool run
  (exit status, stdout, produced files) is supplied by a `*World`
  structure, so that each Python function becomes a pure Lean function
  of the world, the filesystem and its arguments.
- A raised Python exception is an `Except.error`; `try/except` blocks
  are explicit matches on the `Except` value.  The concrete command
  argument strings passed to the external tools are abstracted (no claim
  depends on them); which tool is invoked, and whether it is invoked,
  is preserved exactly.
-/

/-- Model of Python `str.startswith(pre)`: is `pre` a leading piece of `s`. -/
def strStarts (s pre : String) : Bool :=
  pre.data.isPrefixOf s.data

/-- Tokenizer for Python `str.split()` (split on whitespace runs, no empty
tokens); accumulator-based structural recursion over the characters. -/
def tokenizeAux : List Char → List Char → List (List Char)
  | [], acc => if acc.isEmpty then [] else [acc.reverse]
  | c :: cs, acc =>
    if c.isWhitespace then
      if acc.isEmpty then tokenizeAux cs [] else acc.reverse :: tokenizeAux cs []
    else tokenizeAux cs (c :: acc)

/-- Model of Python `str.split()` with no separator argument. -/
def splitToks (s : String) : List String :=
  (tokenizeAux s.data []).map String.mk

/-- Model of Python `str.strip()`. -/
def strTrim (s : String) : String :=
  String.mk (((s.data.dropWhile Char.isWhitespace).reverse.dropWhile Char.isWhitespace).reverse)

/-- Occurrence of a character sequence inside another (for Python `sub in s`). -/
def containsSeq (needle : List Char) : List Char → Bool
  | [] => needle.isEmpty
  | c :: cs => needle.isPrefixOf (c :: cs) || containsSeq needle cs

/-- Model of Python `sub in s` on strings. -/
def strContainsSub (s sub : String) : Bool :=
  containsSeq sub.data s.data

/-- Splitter for Python `str.split(sep)` with a one-character separator;
always returns at least one piece. -/
def splitOnCharAux (sep : Char) : List Char → List Char → List (List Char)
  | [], acc => [acc.reverse]
  | c :: cs, acc =>
    if c = sep then acc.reverse :: splitOnCharAux sep cs []
    else splitOnCharAux sep cs (c :: acc)

/-- Model of Python `str.split(sep)` for a one-character separator. -/
def strSplitOnChar (s : String) (sep : Char) : List String :=
  (splitOnCharAux sep s.data []).map String.mk

/-- An exact scaled decimal: `(m, p)` denotes `m / 10 ^ p`.  This is the
value of a Python float literal token as written. -/
abbrev Dec := Int × ℕ

/-- The rational value of a scaled decimal. -/
def decVal (d : Dec) : ℚ :=
  (d.1 : ℚ) / 10 ^ d.2

/-- Numeric value of a digit list (most significant first). -/
def digitsVal (cs : List Char) : ℕ :=
  cs.foldl (fun n c => 10 * n + (c.toNat - 48)) 0

/-- All characters are decimal digits. -/
def allDigits (cs : List Char) : Bool :=
  cs.all Char.isDigit

/-- Model of Python `float(s)` restricted to plain decimal notation:
optional surrounding whitespace, optional sign, digits with at most one
decimal point, at least one digit.  `none` models the `ValueError` raise. -/
def pyFloat (s : String) : Option Dec :=
  let cs := (strTrim s).data
  let signed : Int × List Char :=
    match cs with
    | '-' :: r => (-1, r)
    | '+' :: r => (1, r)
    | r => (1, r)
  match splitOnCharAux '.' signed.2 [] with
  | [ip] =>
    if ip.isEmpty || !allDigits ip then none
    else some (signed.1 * (digitsVal ip : Int), 0)
  | [ip, fp] =>
    if (ip.isEmpty && fp.isEmpty) || !allDigits ip || !allDigits fp then none
    else some (signed.1 * ((digitsVal ip : Int) * 10 ^ fp.length + (digitsVal fp : Int)), fp.length)
  | _ => none

/-- Model of Python `pathlib` paths as segment lists. -/
abbrev FPath := List String

/-- Final segment of a path (`Path.name`). -/
def lastName (p : FPath) : String :=
  (p.getLast?).getD ""

/-- Model of `Path.parent` (and of `parent.resolve()`, which the code only
uses for normalisation). -/
def parentOf (p : FPath) : FPath :=
  p.dropLast

/-- Model of Python `Path.stem`: the final segment without its last suffix. -/
def stemOf (s : String) : String :=
  let parts := strSplitOnChar s '.'
  if parts.length ≤ 1 then s else String.intercalate "." parts.dropLast

/-- The sibling artifact path `parent / (stem + ".pdbqt")` that all four
preparation helpers in the source compute for a source structure path. -/
def pdbqtSibling (p : FPath) : FPath :=
  parentOf p ++ [stemOf (lastName p) ++ ".pdbqt"]

/-- The filesystem: an association list from paths to file content
(line lists); the most recent write shadows older entries. -/
abbrev FS := List (FPath × List String)

/-- Model of `Path.exists()`. -/
def fsExists (fs : FS) (p : FPath) : Bool :=
  fs.any (fun e => decide (e.1 = p))

/-- Model of opening a file and reading its lines; `none` when absent
(a raised `FileNotFoundError` at the call site). -/
def fsRead (fs : FS) (p : FPath) : Option (List String) :=
  (fs.find? (fun e => decide (e.1 = p))).map (fun e => e.2)

/-- Model of writing a file. -/
def fsWrite (fs : FS) (p : FPath) (content : List String) : FS :=
  (p, content) :: fs

/-- Model of `tempfile.TemporaryDirectory.__exit__`: delete the directory
and everything below it. -/
def fsRemoveUnder (fs : FS) (tmp : FPath) : FS :=
  fs.filter (fun e => !(tmp.isPrefixOf e.1))

/-- The Python exception kinds raised by the embedded code. -/
inductive Err
  | fileNotFound
  | calledProcessError
  | runtimeError
  | valueError
  | indexError
  | stopIteration
  | conformerError
deriving DecidableEq, Repr

instance {ε α : Type} [DecidableEq ε] [DecidableEq α] : DecidableEq (Except ε α) :=
  fun a b =>
    match a, b with
    | .ok x, .ok y =>
      if h : x = y then isTrue (by rw [h]) else isFalse (by simp [h])
    | .error e, .error f =>
      if h : e = f then isTrue (by rw [h]) else isFalse (by simp [h])
    | .ok _, .error _ => isFalse (by simp)
    | .error _, .ok _ => isFalse (by simp)

/-- Trace entries for the external processes the pipeline launches. -/
inductive ExtCall
  | runCommands (cmds : List String)
  | qvinaRun
  | gninaRun
  | obabelRun (tgt : FPath)
  | probeCall (c : String)
  | autogridRun (c : String)
  | autodockRun
deriving DecidableEq, Repr

/-- An RDKit molecule, reduced to the one property the pipeline queries:
whether `GetConformer()` succeeds (the 3-D coordinates themselves only feed
the abstracted command arguments). -/
structure Mol where
  confOk : Bool
deriving DecidableEq, Repr

/-- A DataFrame row as the façades read it: `row["molecule"]`,
`row["test_set_item"]["protein"].path`, `row["molecule_path"]`. -/
structure Row where
  molecule : Option Mol
  proteinPath : FPath
  moleculePath : FPath
deriving DecidableEq, Repr

/-- The `try: ... except ...: return None` boundary shared by all three
façades: any raised error becomes the "no score" result. -/
def facadeCatch (r : Except Err (Option Dec) × FS × List ExtCall) :
    Except Err (Option Dec) × FS × List ExtCall :=
  match r.1 with
  | .ok v => (.ok v, r.2)
  | .error _ => (.ok none, r.2)

/-! ## QuickVina adapter (diffusion_hopping/analysis/evaluate/qvina.py) -/

/-- Outcomes of the external tools the QuickVina adapter runs. -/
structure QvinaWorld where
  mkReceptorOk : Bool
  molFromPdbOk : Bool
  mkLigandOk : Bool
  qvinaExit : Int
  qvinaStdout : List String

/-- Modelled from the spec: `_run_commands` lives in
`diffusion_hopping/analysis/evaluate/util.py`, which is not among the
provided sources.  Per the spec's Process Runner contract (section 4.6) it
executes the given external command unconditionally — no memoization, no
retries — capturing output and exit status, and a tool failure surfaces as
a raised error at the call site (section 4.5 re-raises converter failures).
`ok` is the world-supplied success of the launched tool. -/
def _run_commands (ok : Bool) (cmds : List String) : Except Err Unit × List ExtCall :=
  (if ok then .ok () else .error .calledProcessError, [ExtCall.runCommands cmds])

/-- Python `_prepare_protein` (qvina.py): computes the sibling `.pdbqt`
path and unconditionally runs `mk_prepare_receptor.py` through
`_run_commands`; on success the tool has written the target. -/
def _prepare_protein (w : QvinaWorld) (fs : FS) (p : FPath) :
    Except Err FPath × FS × List ExtCall :=
  let tgt := pdbqtSibling p
  let r := _run_commands w.mkReceptorOk ["mk_prepare_receptor.py"]
  match r.1 with
  | .ok _ => (.ok tgt, fsWrite fs tgt [], r.2)
  | .error e => (.error e, fs, r.2)

/-- Python `_prepare_ligand` (qvina.py): converts the PDB to SDF with RDKit
when possible (else falls back to the PDB itself) and unconditionally runs
`mk_prepare_ligand.py` through `_run_commands`. -/
def _prepare_ligand (w : QvinaWorld) (fs : FS) (p : FPath) :
    Except Err FPath × FS × List ExtCall :=
  let tgt := pdbqtSibling p
  let sdf := parentOf p ++ [stemOf (lastName p) ++ ".sdf"]
  let fs1 := if w.molFromPdbOk then fsWrite fs sdf [] else fs
  let r := _run_commands w.mkLigandOk ["mk_prepare_ligand.py"]
  match r.1 with
  | .ok _ => (.ok tgt, fsWrite fs1 tgt [], r.2)
  | .error e => (.error e, fs1, r.2)

/-- The result-table separator that `_calculate_qvina_score` looks for. -/
def qvinaSep : String := "-----+------------+----------+----------"

/-- The `for line in out_lines: if line.startswith(sep): break` loop:
returns the lines after the first separator line, `none` when none found. -/
def qvinaFindTail : List String → Option (List String)
  | [] => none
  | l :: ls => if strStarts l qvinaSep then some ls else qvinaFindTail ls

/-- The row check of Python `_calculate_qvina_score`: the first token of
the line after the separator must be `"1"` (`RuntimeError` otherwise,
`IndexError` on an empty line) and its second token is converted with
`float` (`IndexError` when missing, `ValueError` when unparsable). -/
def qvinaParseRow (row : String) : Except Err Dec :=
  match splitToks row with
  | [] => .error .indexError
  | [t0] => if t0 = "1" then .error .indexError else .error .runtimeError
  | t0 :: t1 :: _ =>
    if t0 = "1" then
      match pyFloat t1 with
      | some q => .ok q
      | none => .error .valueError
    else .error .runtimeError

/-- The stdout-parsing tail of Python `_calculate_qvina_score`: find the
separator, take the next line (`StopIteration` when the iterator is
exhausted, with or without a separator found) and parse it as the rank-1
row. -/
def qvinaParseStdout (lines : List String) : Except Err Dec :=
  match qvinaFindTail lines with
  | none => .error .stopIteration
  | some [] => .error .stopIteration
  | some (row :: _) => qvinaParseRow row

/-- Python `_calculate_qvina_score`: box center from the conformer (raises
when absent), one `qvina2.1` run, `RuntimeError` on non-zero exit, then
stdout parsing. -/
def _calculate_qvina_score (w : QvinaWorld) (mol : Mol) :
    Except Err Dec × List ExtCall :=
  if mol.confOk then
    if w.qvinaExit ≠ 0 then (.error .runtimeError, [ExtCall.qvinaRun])
    else (qvinaParseStdout w.qvinaStdout, [ExtCall.qvinaRun])
  else (.error .conformerError, [])

/-- The body of the `try:` block of Python `qvina_score`. -/
def qvina_score_body (w : QvinaWorld) (fs : FS) (row : Row) :
    Except Err (Option Dec) × FS × List ExtCall :=
  match row.molecule with
  | none => (.ok none, fs, [])
  | some mol =>
    match _prepare_protein w fs row.proteinPath with
    | (.error e, fs1, c1) => (.error e, fs1, c1)
    | (.ok _, fs1, c1) =>
      match _prepare_ligand w fs1 row.moleculePath with
      | (.error e, fs2, c2) => (.error e, fs2, c1 ++ c2)
      | (.ok _, fs2, c2) =>
        match _calculate_qvina_score w mol with
        | (.error e, c3) => (.error e, fs2, c1 ++ c2 ++ c3)
        | (.ok q, c3) => (.ok (some q), fs2, c1 ++ c2 ++ c3)

/-- Python `qvina_score`: the façade, a bare `except:` around the body. -/
def qvina_score (w : QvinaWorld) (fs : FS) (row : Row) :
    Except Err (Option Dec) × FS × List ExtCall :=
  facadeCatch (qvina_score_body w fs row)

/-! ## gnina adapter (diffusion_hopping/analysis/evaluate/gnina.py) -/

/-- Outcomes of the external tools the gnina adapter runs.  `ssdExists`
is the `Path(...).exists()` probe of the first binary candidate; binary
resolution never fails because the second candidate is the bare name
`"gnina"`, accepted unconditionally. -/
structure GninaWorld where
  ssdExists : Bool
  gninaExit : Int
  gninaStdout : List String

/-- The `Affinity:` fallback loop of Python `_calculate_gnina_score`:
first line starting (after strip) with `"Affinity:"` whose second token
parses as a float wins; `ValueError` lines are skipped (`continue`); no
match at all is the final `RuntimeError` diagnostic. -/
def gninaAffinityScan : List String → Except Err Dec
  | [] => .error .runtimeError
  | l :: ls =>
    if strStarts (strTrim l) "Affinity:" then
      match splitToks l with
      | _ :: t1 :: _ =>
        match pyFloat t1 with
        | some q => .ok q
        | none => gninaAffinityScan ls
      | _ => gninaAffinityScan ls
    else gninaAffinityScan ls

/-- The result-table loop of Python `_calculate_gnina_score`: at the first
line whose stripped form starts with `"-----"`, look at the immediately
following line; when it has at least two tokens and its first token is
`"1"`, return its second token (`float` may raise); in every other case
`break`, which falls through to the `Affinity:` scan.  `none` means
"fall through". -/
def gninaTableScan : List String → Option (Except Err Dec)
  | [] => none
  | l :: ls =>
    if strStarts (strTrim l) "-----" then
      match ls with
      | [] => none
      | row :: _ =>
        match splitToks (strTrim row) with
        | t0 :: t1 :: _ =>
          if t0 = "1" then
            some (match pyFloat t1 with
              | some q => .ok q
              | none => .error .valueError)
          else none
        | _ => none
    else gninaTableScan ls

/-- The full stdout parsing of Python `_calculate_gnina_score`: the table
scan, and on fall-through the `Affinity:` scan. -/
def gninaParseStdout (lines : List String) : Except Err Dec :=
  match gninaTableScan lines with
  | some r => r
  | none => gninaAffinityScan lines

/-- Python `_calculate_gnina_score`: conformer center (raises when absent),
binary resolution (never fails), one gnina run, `RuntimeError` on non-zero
exit, then stdout parsing. -/
def _calculate_gnina_score (w : GninaWorld) (mol : Mol) :
    Except Err Dec × List ExtCall :=
  if mol.confOk then
    if w.gninaExit ≠ 0 then (.error .runtimeError, [ExtCall.gninaRun])
    else (gninaParseStdout w.gninaStdout, [ExtCall.gninaRun])
  else (.error .conformerError, [])

/-- The body of the `try:` block of Python `gnina_score` (no structure
preparation: protein PDB and ligand paths are passed through). -/
def gnina_score_body (w : GninaWorld) (fs : FS) (row : Row) :
    Except Err (Option Dec) × FS × List ExtCall :=
  match row.molecule with
  | none => (.ok none, fs, [])
  | some mol =>
    match _calculate_gnina_score w mol with
    | (.error e, c) => (.error e, fs, c)
    | (.ok q, c) => (.ok (some q), fs, c)

/-- Python `gnina_score`: the façade, `except Exception` around the body. -/
def gnina_score (w : GninaWorld) (fs : FS) (row : Row) :
    Except Err (Option Dec) × FS × List ExtCall :=
  facadeCatch (gnina_score_body w fs row)

/-! ## AutoDock-GPU adapter (diffusion_hopping/analysis/evaluate/autodock_gpu.py) -/

/-- Outcome of probing one autogrid binary candidate with `-h` (the
`subprocess.run([path, "-h"], timeout=2)` call): the launch can raise
`FileNotFoundError` or `TimeoutExpired` (both swallowed by `continue`),
or run and report an exit code and whether "AutoGrid" appears in its
stdout/stderr. -/
inductive ProbeRes
  | raiseNotFound
  | timedOut
  | ran (code : Int) (outHas : Bool) (errHas : Bool)
deriving DecidableEq, Repr

/-- The acceptance test of the probe loop:
`returncode == 0 or "AutoGrid" in stdout or "AutoGrid" in stderr`. -/
def probeAccept : ProbeRes → Bool
  | .ran code outHas errHas => decide (code = 0) || outHas || errHas
  | _ => false

/-- Outcomes of the external tools the AutoDock-GPU adapter runs, plus its
configuration (`config.DATA_ROOT`, `Path.home()`) and the fresh name that
`tempfile.TemporaryDirectory` picks for this invocation. -/
structure AdWorld where
  dataRoot : FPath
  homeDir : String
  probe : String → ProbeRes
  autogridExit : Int
  obabelProteinOk : Bool
  obabelLigandOk : Bool
  proteinPdbqtContent : List String
  ligandPdbqtContent : List String
  autodockSsdExists : Bool
  autodockExit : Int
  dlgProduced : Bool
  dlgLines : List String
  tmpName : String

/-- Python `_prepare_protein_pdbqt` (autodock_gpu.py): skip the obabel run
entirely when the sibling `.pdbqt` already exists, else run obabel, which
on success writes the target and on failure raises
`subprocess.CalledProcessError` (re-raised after printing). -/
def _prepare_protein_pdbqt (w : AdWorld) (fs : FS) (p : FPath) :
    Except Err FPath × FS × List ExtCall :=
  let tgt := pdbqtSibling p
  if fsExists fs tgt then (.ok tgt, fs, [])
  else if w.obabelProteinOk then
    (.ok tgt, fsWrite fs tgt w.proteinPdbqtContent, [ExtCall.obabelRun tgt])
  else (.error .calledProcessError, fs, [ExtCall.obabelRun tgt])

/-- Python `_prepare_ligand_pdbqt` (autodock_gpu.py): same shape as the
protein preparation (the obabel flags differ, which the trace abstracts). -/
def _prepare_ligand_pdbqt (w : AdWorld) (fs : FS) (p : FPath) :
    Except Err FPath × FS × List ExtCall :=
  let tgt := pdbqtSibling p
  if fsExists fs tgt then (.ok tgt, fs, [])
  else if w.obabelLigandOk then
    (.ok tgt, fsWrite fs tgt w.ligandPdbqtContent, [ExtCall.obabelRun tgt])
  else (.error .calledProcessError, fs, [ExtCall.obabelRun tgt])

/-- Code-point lexicographic order on character lists: the order Python's
`sorted` uses on strings. -/
def charListLe : List Char → List Char → Bool
  | [], _ => true
  | _ :: _, [] => false
  | a :: as, b :: bs =>
    if a.toNat < b.toNat then true
    else if b.toNat < a.toNat then false
    else charListLe as bs

/-- Code-point lexicographic order on strings (Python string comparison). -/
def strLe (s t : String) : Bool :=
  charListLe s.data t.data

instance : IsTrans String (fun a b => strLe a b = true) :=
  ⟨fun x y z hxy hyz => by
    unfold strLe at *
    generalize x.data = as at hxy ⊢
    generalize y.data = bs at hxy hyz
    generalize z.data = cs at hyz ⊢
    revert hxy hyz
    induction as generalizing bs cs with
    | nil => intro _ _; rfl
    | cons a as ih =>
      intro hxy hyz
      cases bs with
      | nil => simp [charListLe] at hxy
      | cons b bs =>
        cases cs with
        | nil => simp [charListLe] at hyz
        | cons c cs =>
          simp only [charListLe] at hxy hyz ⊢
          by_cases hab : a.toNat < b.toNat <;> by_cases hba : b.toNat < a.toNat <;>
            by_cases hbc : b.toNat < c.toNat <;> by_cases hcb : c.toNat < b.toNat <;>
              simp [hab, hba, hbc, hcb] at hxy hyz ⊢ <;>
                first
                | omega
                | exact Or.inr ⟨by omega, ih bs cs hxy hyz⟩⟩

instance : IsTotal String (fun a b => strLe a b = true) :=
  ⟨fun x y => by
    unfold strLe
    generalize x.data = as
    generalize y.data = bs
    induction as generalizing bs with
    | nil => left; rfl
    | cons a as ih =>
      cases bs with
      | nil => right; rfl
      | cons b bs =>
        simp only [charListLe]
        by_cases hab : a.toNat < b.toNat <;> by_cases hba : b.toNat < a.toNat <;>
          simp [hab, hba] <;> first | omega | exact ih bs⟩

/-- One coordinate-record line's contribution in `_get_atom_types`: lines
beginning with "ATOM" or "HETATM" that split into at least two
whitespace-separated fields contribute their last field. -/
def coordToken (l : String) : Option String :=
  if strStarts l "ATOM" || strStarts l "HETATM" then
    if 2 ≤ (splitToks l).length then (splitToks l).getLast? else none
  else none

/-- Python `_get_atom_types` (autodock_gpu.py): the collected tokens as a
set (`atom_types = set(); ...; atom_types.add(candidate)`), returned as
`sorted(list(atom_types))` — modelled as deduplication followed by a sort
under the Python string order `strLe`. -/
def _get_atom_types (lines : List String) : List String :=
  List.insertionSort (fun a b => strLe a b = true) (lines.filterMap coordToken).dedup

/-- Python `_prepare_grid_parameter_file` (autodock_gpu.py): read both
prepared structure files, compute the receptor and ligand atom-type
inventories separately, and write the `.gpf` artifact into the output
directory.  The textual gpf schema (npts/gridfld/spacing/…) is abstracted
to the two inventories, the only content any claim depends on. -/
def _prepare_grid_parameter_file (fs : FS) (proteinPdbqt ligandPdbqt outDir : FPath) :
    Except Err FPath × FS :=
  match fsRead fs proteinPdbqt, fsRead fs ligandPdbqt with
  | some pLines, some lLines =>
    let gpf := outDir ++ [stemOf (lastName proteinPdbqt) ++ ".gpf"]
    (.ok gpf, fsWrite fs gpf (_get_atom_types pLines ++ _get_atom_types lLines))
  | _, _ => (.error .fileNotFound, fs)

/-- The ordered candidate locations `_run_autogrid` probes for the grid
generator. -/
def autogridCandidates (w : AdWorld) : List String :=
  ["autogrid4", "/usr/local/bin/autogrid4",
   w.homeDir ++ "/MGLTools-1.5.7/bin/autogrid4"]

/-- The `for path in possible_paths:` probe loop: returns the first
accepted candidate and the list of candidates actually probed (the loop
breaks at the first acceptance). -/
def findAutogridAux (pr : String → ProbeRes) : List String → Option String × List String
  | [] => (none, [])
  | c :: cs =>
    if probeAccept (pr c) then (some c, [c])
    else
      let r := findAutogridAux pr cs
      (r.1, c :: r.2)

/-- The discovered autogrid binary, if any. -/
def findAutogrid (w : AdWorld) : Option String :=
  (findAutogridAux w.probe (autogridCandidates w)).1

/-- Python `_run_autogrid` (autodock_gpu.py): probe the candidates; raise
`RuntimeError` when none is accepted; else run autogrid and raise
`RuntimeError` when it exits non-zero. -/
def _run_autogrid (w : AdWorld) : Except Err Unit × List ExtCall :=
  let fr := findAutogridAux w.probe (autogridCandidates w)
  match fr.1 with
  | none => (.error .runtimeError, fr.2.map ExtCall.probeCall)
  | some c =>
    if w.autogridExit = 0 then (.ok (), fr.2.map ExtCall.probeCall ++ [ExtCall.autogridRun c])
    else (.error .runtimeError, fr.2.map ExtCall.probeCall ++ [ExtCall.autogridRun c])

/-- The hard-coded first AutoDock-GPU binary candidate. -/
def adgpuSsdPath : String :=
  "/mnt/SSD3/cong_nguyen/Code/pharmacy_code/AutoDock-GPU/bin/autodock_gpu_128wi"

/-- AutoDock-GPU binary resolution with the default `autodock_gpu_path=None`:
the first candidate whose `Path(...).exists()` or whose name starts with
"autodock_gpu" wins; since the second candidate is "autodock_gpu_128wi"
this never fails. -/
def resolveAutodock (w : AdWorld) : String :=
  if w.autodockSsdExists then adgpuSsdPath else "autodock_gpu_128wi"

/-- The DLG-report scanning loop of `_calculate_autodock_gpu_score`, with
`acc` the running `best_energy`: a line whose stripped form starts with
"RANKING" and has at least three fields with field 1 equal to "1" sets
`best_energy` to field 2 and `break`s; otherwise a line containing
"Estimated Free Energy of Binding" with an "=" updates `best_energy` with
the first token after the "=" and the scan continues; `float` and token
indexing may raise. -/
def dlgScan : List String → Option Dec → Except Err (Option Dec)
  | [], acc => .ok acc
  | l :: ls, acc =>
    if strStarts (strTrim l) "RANKING" then
      match splitToks l with
      | _ :: r :: e :: _ =>
        if r = "1" then
          match pyFloat e with
          | some q => .ok (some q)
          | none => .error .valueError
        else dlgScan ls acc
      | _ => dlgScan ls acc
    else if strContainsSub l "Estimated Free Energy of Binding" then
      match strSplitOnChar l '=' with
      | _ :: p1 :: _ =>
        match splitToks (strTrim p1) with
        | [] => .error .indexError
        | t :: _ =>
          match pyFloat t with
          | some q => dlgScan ls (some q)
          | none => .error .valueError
      | _ => dlgScan ls acc
    else dlgScan ls acc

/-- The DLG parsing tail of `_calculate_autodock_gpu_score`: run the scan
from `best_energy = None`; a final `None` is the
"could not parse binding energy" `RuntimeError`. -/
def parseDlgLines (lines : List String) : Except Err Dec :=
  match dlgScan lines none with
  | .error e => .error e
  | .ok none => .error .runtimeError
  | .ok (some q) => .ok q

/-- The path `tempfile.TemporaryDirectory` creates for this invocation. -/
def tmpPathOf (w : AdWorld) : FPath :=
  ["tmp", w.tmpName]

/-- Model of `with tempfile.TemporaryDirectory() as tmpdir:`: create the
directory, run the body, and delete the directory and its contents on
every exit path — normal return and raised error alike (a Python `with`
re-raises after cleanup). -/
def withTempDir (tmp : FPath) (fs : FS)
    (body : FS → Except Err (Option Dec) × FS × List ExtCall) :
    Except Err (Option Dec) × FS × List ExtCall :=
  let r := body (fsWrite fs tmp [])
  (r.1, fsRemoveUnder r.2.1 tmp, r.2.2)

/-- The body of the `with tempfile.TemporaryDirectory()` block of
`_calculate_autodock_gpu_score`: copy the protein pdbqt into the
workspace, emit the gpf, run autogrid (`except RuntimeError: return None`),
resolve and run the docking binary (`RuntimeError` on non-zero exit),
require the `.dlg` report (`RuntimeError` when missing) and parse it. -/
def adgpuTmpBody (w : AdWorld) (fs : FS) (proteinPdbqt ligandPdbqt : FPath) :
    Except Err (Option Dec) × FS × List ExtCall :=
  let tmp := tmpPathOf w
  match fsRead fs proteinPdbqt with
  | none => (.error .fileNotFound, fs, [])
  | some content =>
    let tempProt := tmp ++ [lastName proteinPdbqt]
    let fs1 := fsWrite fs tempProt content
    match _prepare_grid_parameter_file fs1 tempProt ligandPdbqt tmp with
    | (.error e, fs2) => (.error e, fs2, [])
    | (.ok _, fs2) =>
      let ag := _run_autogrid w
      match ag.1 with
      | .error _ => (.ok none, fs2, ag.2)
      | .ok _ =>
        let calls := ag.2 ++ [ExtCall.autodockRun]
        if w.autodockExit ≠ 0 then (.error .runtimeError, fs2, calls)
        else if w.dlgProduced then
          let fs3 := fsWrite fs2 (tmp ++ ["docking_result.dlg"]) w.dlgLines
          match parseDlgLines w.dlgLines with
          | .error e => (.error e, fs3, calls)
          | .ok q => (.ok (some q), fs3, calls)
        else (.error .runtimeError, fs2, calls)

/-- Python `_calculate_autodock_gpu_score`: conformer center (raises when
absent), protein and ligand pdbqt preparation, then the temporary-workspace
block. -/
def _calculate_autodock_gpu_score (w : AdWorld) (fs : FS)
    (proteinPath ligandPath : FPath) (mol : Mol) :
    Except Err (Option Dec) × FS × List ExtCall :=
  if mol.confOk then
    match _prepare_protein_pdbqt w fs proteinPath with
    | (.error e, fs1, c1) => (.error e, fs1, c1)
    | (.ok pP, fs1, c1) =>
      match _prepare_ligand_pdbqt w fs1 ligandPath with
      | (.error e, fs2, c2) => (.error e, fs2, c1 ++ c2)
      | (.ok lP, fs2, c2) =>
        let r := withTempDir (tmpPathOf w) fs2 (fun fsT => adgpuTmpBody w fsT pP lP)
        (r.1, r.2.1, c1 ++ c2 ++ r.2.2)
  else (.error .conformerError, fs, [])

/-- The re-rooted protein path: `DATA_ROOT / Path(*parts[idx+1:])` where
`idx` is the index of the first "data" segment. -/
def rerootOf (dataRoot p : FPath) : FPath :=
  dataRoot ++ p.drop (p.findIdx (fun s => s == "data") + 1)

/-- The protein-path resolution of Python `autodock_gpu_score`: keep a path
that exists; else, when a "data" segment is present, re-root under
`DATA_ROOT` and keep that when it exists, raising `FileNotFoundError` when
it does not; a missing path without a "data" segment passes through
unchanged. -/
def resolveProteinPath (fs : FS) (dataRoot p : FPath) : Except Err FPath :=
  if fsExists fs p then .ok p
  else if p.contains "data" then
    let rr := rerootOf dataRoot p
    if fsExists fs rr then .ok rr else .error .fileNotFound
  else .ok p

/-- The body of the `try:` block of Python `autodock_gpu_score`. -/
def autodock_gpu_score_body (w : AdWorld) (fs : FS) (row : Row) :
    Except Err (Option Dec) × FS × List ExtCall :=
  match row.molecule with
  | none => (.ok none, fs, [])
  | some mol =>
    match resolveProteinPath fs w.dataRoot row.proteinPath with
    | .error e => (.error e, fs, [])
    | .ok pPath => _calculate_autodock_gpu_score w fs pPath row.moleculePath mol

/-- Python `autodock_gpu_score`: the façade, `except Exception` around the
body. -/
def autodock_gpu_score (w : AdWorld) (fs : FS) (row : Row) :
    Except Err (Option Dec) × FS × List ExtCall :=
  facadeCatch (autodock_gpu_score_body w fs row)

/-! ## Readings of claim sentences, used to compare spec with code -/

/-- The value a single DLG line contributes under either of the claim's
two rules (a rank-1 "RANKING" row, or an "Estimated Free Energy of
Binding" line with a value after "="). -/
def dlgMatchVal (l : String) : Option Dec :=
  if strStarts (strTrim l) "RANKING" then
    match splitToks l with
    | _ :: r :: e :: _ => if r = "1" then pyFloat e else none
    | _ => none
  else if strContainsSub l "Estimated Free Energy of Binding" then
    match strSplitOnChar l '=' with
    | _ :: p1 :: _ =>
      match splitToks (strTrim p1) with
      | t :: _ => pyFloat t
      | [] => none
    | _ => none
  else none

/-- Reading of claim C2's words: scan the whole file and keep the last
match found under either rule. -/
def dlgSpecLastMatch (lines : List String) : Option Dec :=
  lines.foldl (fun acc l => match dlgMatchVal l with | some q => some q | none => acc) none

/-- The table lines after the first gnina-style separator, if any. -/
def gninaFindTail : List String → Option (List String)
  | [] => none
  | l :: ls => if strStarts (strTrim l) "-----" then some ls else gninaFindTail ls

/-- Reading of claim C5's words: when a table separator occurs anywhere in
stdout, parse the table exactly as the one-shot rule (immediately following
row must be rank "1", else fail) and never fall back; only when no
separator is found apply the "Affinity:" scan. -/
def gninaParseSpecClaim (lines : List String) : Except Err Dec :=
  match gninaFindTail lines with
  | some [] => .error .runtimeError
  | some (row :: _) =>
    match splitToks (strTrim row) with
    | t0 :: t1 :: _ =>
      if t0 = "1" then
        match pyFloat t1 with
        | some q => .ok q
        | none => .error .valueError
      else .error .runtimeError
    | _ => .error .runtimeError
  | none => gninaAffinityScan lines

/-- No path below `tmp` is present in the filesystem. -/
def noneUnder (tmp : FPath) (fs : FS) : Prop :=
  ∀ q : FPath, tmp.isPrefixOf q = true → fsExists fs q = false

/-- Freshness of the temporary-directory name picked for a request: the
name `tempfile` returns is unused, so nothing in the initial filesystem and
none of the artifact paths the adapter writes outside the workspace (the
prepared pdbqt siblings of the — possibly re-rooted — protein and of the
ligand) lie below it. -/
def tmpFresh (w : AdWorld) (fs : FS) (row : Row) : Bool :=
  let tmp := tmpPathOf w
  fs.all (fun e => !(tmp.isPrefixOf e.1)) &&
  !(tmp.isPrefixOf (pdbqtSibling row.proteinPath)) &&
  !(tmp.isPrefixOf (pdbqtSibling (rerootOf w.dataRoot row.proteinPath))) &&
  !(tmp.isPrefixOf (pdbqtSibling row.moleculePath))

/-! ## Concrete example data shared by witnesses and counterexamples -/

/-- A molecule whose conformer lookup succeeds. -/
def exMol : Mol := ⟨true⟩

/-- A row with no generated molecule. -/
def exRowNone : Row := ⟨none, ["data", "prot.pdb"], ["data", "lig.pdb"]⟩

/-- A row with a generated molecule. -/
def exRowSome : Row := ⟨some exMol, ["data", "prot.pdb"], ["data", "lig.pdb"]⟩

/-- A QuickVina world in which every external tool succeeds. -/
def exQW : QvinaWorld := ⟨true, true, true, 0, []⟩

/-- A gnina world in which the binary resolves to the bare name. -/
def exGW : GninaWorld := ⟨false, 0, []⟩

/-- An AutoDock-GPU world in which no autogrid candidate can be launched. -/
def exAW : AdWorld :=
  ⟨["dr"], "/home/u", fun _ => ProbeRes.raiseNotFound, 0, true, true, [], [],
   false, 0, false, [], "t0"⟩

/-- A filesystem that already holds the prepared protein artifact. -/
def exFsTgt : FS := [(["data", "prot.pdbqt"], [])]

/-! ## Helper lemmas -/

/-- The façade boundary always yields an `ok` value, whatever the body did. -/
theorem facadeCatch_exists_ok (r : Except Err (Option Dec) × FS × List ExtCall) :
    ∃ v, (facadeCatch r).1 = Except.ok v := by
  rcases r with ⟨x, fs, cs⟩
  cases x with
  | ok v => exact ⟨v, rfl⟩
  | error e => exact ⟨none, rfl⟩

/-- The façade boundary leaves the filesystem and the call trace alone. -/
theorem facadeCatch_snd (r : Except Err (Option Dec) × FS × List ExtCall) :
    (facadeCatch r).2 = r.2 := by
  rcases r with ⟨x, fs, cs⟩
  cases x <;> rfl

/-- A body that returned "no score" or raised becomes "no score" at the
façade boundary. -/
theorem facadeCatch_ok_none (r : Except Err (Option Dec) × FS × List ExtCall)
    (h : r.1 = Except.ok none ∨ ∃ e, r.1 = Except.error e) :
    (facadeCatch r).1 = Except.ok none := by
  rcases r with ⟨x, fs, cs⟩
  rcases h with h | ⟨e, h⟩ <;> simp only at h <;> rw [facadeCatch, h]

/-- Skipping separator-free lines: the qvina separator search lands just
after the first separator line. -/
theorem qvinaFindTail_sep (pre : List String) (sep : String) (rest : List String)
    (hpre : ∀ l ∈ pre, strStarts l qvinaSep = false)
    (hsep : strStarts sep qvinaSep = true) :
    qvinaFindTail (pre ++ sep :: rest) = some rest := by
  induction pre with
  | nil => simp [qvinaFindTail, hsep]
  | cons l ls ih =>
    have hl := hpre l (by simp)
    rw [List.cons_append, qvinaFindTail, hl]
    exact ih fun x hx => hpre x (by simp [hx])

/-- Without any separator-shaped line the gnina table scan falls through. -/
theorem gninaTableScan_none (lines : List String)
    (h : ∀ l ∈ lines, strStarts (strTrim l) "-----" = false) :
    gninaTableScan lines = none := by
  induction lines with
  | nil => rfl
  | cons l ls ih =>
    have hl := h l (by simp)
    rw [gninaTableScan.eq_def]
    simp only [hl, Bool.false_eq_true, if_false]
    exact ih fun x hx => h x (by simp [hx])

/-- At the first separator-shaped line, a following rank-1 row with at
least two tokens makes the gnina table scan return its second token's
float conversion. -/
theorem gninaTableScan_sep (pre : List String) (sep row : String)
    (rest : List String) (t1 : String) (ts : List String)
    (hpre : ∀ l ∈ pre, strStarts (strTrim l) "-----" = false)
    (hsep : strStarts (strTrim sep) "-----" = true)
    (hrow : splitToks (strTrim row) = "1" :: t1 :: ts) :
    gninaTableScan (pre ++ sep :: row :: rest) =
      some (match pyFloat t1 with
        | some q => Except.ok q
        | none => Except.error Err.valueError) := by
  induction pre with
  | nil =>
    rw [List.nil_append, gninaTableScan.eq_def]
    simp [hsep, hrow]
  | cons l ls ih =>
    have hl := hpre l (by simp)
    rw [List.cons_append, gninaTableScan.eq_def]
    simp only [hl, Bool.false_eq_true, if_false]
    exact ih fun x hx => hpre x (by simp [hx])

/-- Characterisation of a coordinate-record contribution in
`_get_atom_types`. -/
theorem coordToken_eq_some (l t : String) :
    coordToken l = some t ↔
      ((strStarts l "ATOM" = true ∨ strStarts l "HETATM" = true) ∧
        2 ≤ (splitToks l).length ∧ (splitToks l).getLast? = some t) := by
  unfold coordToken
  by_cases h1 : (strStarts l "ATOM" || strStarts l "HETATM") = true
  · rw [if_pos h1]
    rw [Bool.or_eq_true] at h1
    by_cases h2 : 2 ≤ (splitToks l).length
    · rw [if_pos h2]
      simp [h1, h2]
    · rw [if_neg h2]
      simp [h2]
  · rw [if_neg h1]
    rw [Bool.or_eq_true] at h1
    simp [h1]

/-- A freshly written file exists. -/
theorem fsExists_write_self (fs : FS) (t : FPath) (c : List String) :
    fsExists (fsWrite fs t c) t = true := by
  simp [fsExists, fsWrite]

/-- A protein preparation that returned normally has left the target
artifact on disk. -/
theorem prep_protein_ok_exists (w : AdWorld) (fs : FS) (p : FPath)
    (tgt : FPath) (fs1 : FS) (c1 : List ExtCall)
    (h : _prepare_protein_pdbqt w fs p = (.ok tgt, fs1, c1)) :
    fsExists fs1 (pdbqtSibling p) = true := by
  unfold _prepare_protein_pdbqt at h
  by_cases he : fsExists fs (pdbqtSibling p) = true
  · rw [if_pos he] at h
    simp only [Prod.mk.injEq] at h
    rw [← h.2.1]
    exact he
  · rw [if_neg he] at h
    by_cases ho : w.obabelProteinOk = true
    · rw [if_pos ho] at h
      simp only [Prod.mk.injEq] at h
      rw [← h.2.1]
      exact fsExists_write_self ..
    · rw [if_neg ho] at h
      simp at h

/-- A ligand preparation that returned normally has left the target
artifact on disk. -/
theorem prep_ligand_ok_exists (w : AdWorld) (fs : FS) (p : FPath)
    (tgt : FPath) (fs1 : FS) (c1 : List ExtCall)
    (h : _prepare_ligand_pdbqt w fs p = (.ok tgt, fs1, c1)) :
    fsExists fs1 (pdbqtSibling p) = true := by
  unfold _prepare_ligand_pdbqt at h
  by_cases he : fsExists fs (pdbqtSibling p) = true
  · rw [if_pos he] at h
    simp only [Prod.mk.injEq] at h
    rw [← h.2.1]
    exact he
  · rw [if_neg he] at h
    by_cases ho : w.obabelLigandOk = true
    · rw [if_pos ho] at h
      simp only [Prod.mk.injEq] at h
      rw [← h.2.1]
      exact fsExists_write_self ..
    · rw [if_neg ho] at h
      simp at h

/-! ## Claim theorems -/

/-- Claim C1: for every input row, each score façade function
(`qvina_score`, `gnina_score`, `autodock_gpu_score`) returns either a
score or "no score" and never propagates an exception to its caller,
whatever stage fails — the worlds quantified over include every failure
mode the embedding models (missing input file, converter failure, engine
non-zero exit, unparsable output, missing output artifact). -/
theorem facades_never_raise (wq : QvinaWorld) (wg : GninaWorld) (wa : AdWorld)
    (fs : FS) (row : Row) :
    (∃ v, (qvina_score wq fs row).1 = Except.ok v) ∧
    (∃ v, (gnina_score wg fs row).1 = Except.ok v) ∧
    (∃ v, (autodock_gpu_score wa fs row).1 = Except.ok v) :=
  ⟨facadeCatch_exists_ok (qvina_score_body wq fs row),
   facadeCatch_exists_ok (gnina_score_body wg fs row),
   facadeCatch_exists_ok (autodock_gpu_score_body wa fs row)⟩

/-- Claim C10: a row whose "molecule" field is None makes every façade
return None immediately — unchanged filesystem and an empty external-call
trace (no structure conversion, no grid precomputation, no process
invocation). -/
theorem molecule_none_short_circuit (wq : QvinaWorld) (wg : GninaWorld)
    (wa : AdWorld) (fs : FS) (row : Row) (h : row.molecule = none) :
    qvina_score wq fs row = (Except.ok none, fs, []) ∧
    gnina_score wg fs row = (Except.ok none, fs, []) ∧
    autodock_gpu_score wa fs row = (Except.ok none, fs, []) := by
  refine ⟨?_, ?_, ?_⟩ <;>
    simp [qvina_score, gnina_score, autodock_gpu_score, qvina_score_body,
      gnina_score_body, autodock_gpu_score_body, facadeCatch, h]

/-- Witness for C10 at a concrete molecule-less row. -/
theorem molecule_none_short_circuit_witness :
    qvina_score exQW [] exRowNone = (Except.ok none, [], []) ∧
    gnina_score exGW [] exRowNone = (Except.ok none, [], []) ∧
    autodock_gpu_score exAW [] exRowNone = (Except.ok none, [], []) :=
  molecule_none_short_circuit exQW exGW exAW [] exRowNone rfl

/-- Claim C4: for a QuickVina run, the parser locates the table separator
line, takes the immediately following row, requires that row's first
column to equal "1" (failing otherwise) and returns the row's second
column as the score. -/
theorem qvina_table_parse_rank1 (pre : List String) (sep row : String)
    (rest : List String) (t0 t1 : String) (ts : List String)
    (hpre : ∀ l ∈ pre, strStarts l qvinaSep = false)
    (hsep : strStarts sep qvinaSep = true)
    (hrow : splitToks row = t0 :: t1 :: ts) :
    qvinaParseStdout (pre ++ sep :: row :: rest) =
      (if t0 = "1" then
        (match pyFloat t1 with
         | some q => Except.ok q
         | none => Except.error Err.valueError)
       else Except.error Err.runtimeError) := by
  unfold qvinaParseStdout
  rw [qvinaFindTail_sep pre sep (row :: rest) hpre hsep]
  show qvinaParseRow row = _
  unfold qvinaParseRow
  rw [hrow]

/-- Witness for C4: stdout whose separator is followed by
`1   -7.52   0.000   0.000` parses to the score -7.52. -/
theorem qvina_table_parse_rank1_witness :
    qvinaParseStdout ["-----+------------+----------+----------",
      "1   -7.52   0.000   0.000"] = Except.ok (-752, 2) ∧
    decVal (-752, 2) = -7.52 := by
  constructor
  · have h := qvina_table_parse_rank1 [] "-----+------------+----------+----------"
      "1   -7.52   0.000   0.000" [] "1" "-7.52" ["0.000", "0.000"]
      (by intro l hl; cases hl) (by decide) (by decide)
    exact h.trans (by decide)
  · norm_num [decVal]

/-- Claim C5 counterexample: the gnina adapter applies the `Affinity:`
fallback even though a table separator is present in stdout (here the row
after the separator has rank "2", so the table loop breaks and the
fallback yields -5.0), while the claim's strict-priority reading fails
this stdout instead of falling back. -/
theorem gnina_fallback_despite_table_counterexample :
    gninaParseStdout ["-----", " 2   -3.0   0.0   0.0",
      "Affinity: -5.0  0.0 (kcal/mol)"] = Except.ok (-50, 1) ∧
    gninaParseSpecClaim ["-----", " 2   -3.0   0.0   0.0",
      "Affinity: -5.0  0.0 (kcal/mol)"] = Except.error Err.runtimeError := by
  exact ⟨by decide, by decide⟩

/-- Claim C5 (amended): the gnina parse tries the result table first — at
the first separator line, when the immediately following row exists, has
at least two tokens and rank "1", its second column is the score (with
`float` conversion, `ValueError` on an unparsable token); it falls back to
the `Affinity:` scan not only when no table separator is found, but also
when the row after the first separator is absent or not a rank-1 row; with
no separator at all the behaviour is exactly the `Affinity:` scan; the
claim's concrete no-table example parses to -5.72376, and when neither
pattern yields a score the adapter fails with the diagnostic
`RuntimeError`. -/
theorem gnina_parse_priority_amended :
    (∀ (pre : List String) (sep row : String) (rest : List String)
        (t1 : String) (ts : List String),
      (∀ l ∈ pre, strStarts (strTrim l) "-----" = false) →
      strStarts (strTrim sep) "-----" = true →
      splitToks (strTrim row) = "1" :: t1 :: ts →
      gninaParseStdout (pre ++ sep :: row :: rest) =
        (match pyFloat t1 with
         | some q => Except.ok q
         | none => Except.error Err.valueError)) ∧
    (∀ lines, (∀ l ∈ lines, strStarts (strTrim l) "-----" = false) →
      gninaParseStdout lines = gninaAffinityScan lines) ∧
    gninaParseStdout ["Affinity: -5.72376  0.00000 (kcal/mol)"] =
      Except.ok (-572376, 5) ∧
    decVal (-572376, 5) = -5.72376 ∧
    gninaParseStdout ["no table here", "and no affinity marker"] =
      Except.error Err.runtimeError ∧
    gninaParseStdout ["-----", " 2   -3.0   0.0   0.0",
      "Affinity: -5.0  0.0 (kcal/mol)"] = Except.ok (-50, 1) := by
  refine ⟨?_, ?_, by decide, by norm_num [decVal], by decide, by decide⟩
  · intro pre sep row rest t1 ts hpre hsep hrow
    unfold gninaParseStdout
    rw [gninaTableScan_sep pre sep row rest t1 ts hpre hsep hrow]
  · intro lines h
    unfold gninaParseStdout
    rw [gninaTableScan_none lines h]

/-- Witness for C5 (amended), discharging the table-success hypotheses at
a concrete rank-1 stdout and the no-separator hypothesis at a concrete
Affinity-only stdout. -/
theorem gnina_parse_priority_amended_witness :
    gninaParseStdout ["-----", " 1   -7.5   0.000   0.000"] =
      Except.ok (-75, 1) ∧
    gninaParseStdout ["Affinity: -5.72376  0.00000 (kcal/mol)"] =
      gninaAffinityScan ["Affinity: -5.72376  0.00000 (kcal/mol)"] := by
  constructor
  · have h := gnina_parse_priority_amended.1 [] "-----" " 1   -7.5   0.000   0.000"
      [] "-7.5" ["0.000", "0.000"] (by intro l hl; cases hl) (by decide) (by decide)
    exact h.trans (by decide)
  · exact gnina_parse_priority_amended.2.1 _ (by decide)

/-- Claim C2 counterexample: a report with a rank-1 RANKING row followed by
an Estimated-Free-Energy line parses to the RANKING value -7.52 (the scan
breaks there), while the claim's whole-file last-match reading gives the
later Estimated value -6.10; the two values differ. -/
theorem dlg_parse_last_match_counterexample :
    parseDlgLines ["RANKING    1      -7.52      0.00      0.00",
      "Estimated Free Energy of Binding    =   -6.10 kcal/mol"] =
      Except.ok (-752, 2) ∧
    dlgSpecLastMatch ["RANKING    1      -7.52      0.00      0.00",
      "Estimated Free Energy of Binding    =   -6.10 kcal/mol"] =
      some (-610, 2) ∧
    decVal (-752, 2) ≠ decVal (-610, 2) := by
  refine ⟨by decide, by decide, by norm_num [decVal]⟩

/-- Claim C2 (amended): the DLG scan stops at the first RANKING row whose
rank column is "1" and returns its energy, ignoring everything after it;
an Estimated-Free-Energy line merely updates the running value and the
scan continues, so that value is returned only when no rank-1 RANKING row
occurs; the claim's two concrete examples parse to -7.52 and -6.10. -/
theorem dlg_parse_amended :
    parseDlgLines ["RANKING    1      -7.52      0.00      0.00"] =
      Except.ok (-752, 2) ∧
    decVal (-752, 2) = -7.52 ∧
    parseDlgLines ["Estimated Free Energy of Binding    =   -6.10 kcal/mol"] =
      Except.ok (-610, 2) ∧
    decVal (-610, 2) = -6.10 ∧
    (∀ rest acc, dlgScan ("RANKING    1      -7.52      0.00      0.00" :: rest) acc =
      Except.ok (some (-752, 2))) ∧
    (∀ rest acc,
      dlgScan ("Estimated Free Energy of Binding    =   -6.10 kcal/mol" :: rest) acc =
        dlgScan rest (some (-610, 2))) := by
  refine ⟨by decide, by norm_num [decVal], by decide, by norm_num [decVal],
    fun rest acc => rfl, fun rest acc => rfl⟩

/-- Claim C7 counterexample: a line consisting of the single token "ATOM"
is a coordinate-record line (it begins with "ATOM") whose last
whitespace-separated token is "ATOM", yet `_get_atom_types` omits it
because the code requires at least two fields. -/
theorem atom_types_single_token_counterexample :
    strStarts "ATOM" "ATOM" = true ∧
    (splitToks "ATOM").getLast? = some "ATOM" ∧
    _get_atom_types ["ATOM"] = [] ∧
    "ATOM" ∉ _get_atom_types ["ATOM"] := by decide

/-- Claim C7 (amended): atom-type extraction returns a sorted (in the
Python string order `strLe`), duplicate-free collection containing exactly
the last whitespace-separated token of every coordinate record line — every
line beginning with "ATOM" or "HETATM" — that has at least two
whitespace-separated fields; it applies to any structure file's lines, so
in particular to the receptor file and the ligand file, which
`_prepare_grid_parameter_file` processes separately. -/
theorem atom_types_sorted_nodup_amended (lines : List String) :
    List.Sorted (fun a b => strLe a b = true) (_get_atom_types lines) ∧
    (_get_atom_types lines).Nodup ∧
    (∀ t, t ∈ _get_atom_types lines ↔
      ∃ l ∈ lines, (strStarts l "ATOM" = true ∨ strStarts l "HETATM" = true) ∧
        2 ≤ (splitToks l).length ∧ (splitToks l).getLast? = some t) := by
  refine ⟨List.sorted_insertionSort _ _,
    (List.perm_insertionSort _ _).symm.nodup (List.nodup_dedup _), ?_⟩
  intro t
  unfold _get_atom_types
  rw [(List.perm_insertionSort _ _).mem_iff, List.mem_dedup, List.mem_filterMap]
  constructor
  · rintro ⟨l, hl, hc⟩
    exact ⟨l, hl, (coordToken_eq_some l t).1 hc⟩
  · rintro ⟨l, hl, hc⟩
    exact ⟨l, hl, (coordToken_eq_some l t).2 hc⟩

/-- Claim C3 counterexample: the QuickVina adapter's protein preparation
runs the external converter even when the target artifact already exists,
so preparation is not conversion-skipping for every adapter. -/
theorem qvina_prepare_runs_converter_when_target_exists :
    fsExists exFsTgt (pdbqtSibling ["data", "prot.pdb"]) = true ∧
    (_prepare_protein exQW exFsTgt ["data", "prot.pdb"]).2.2 =
      [ExtCall.runCommands ["mk_prepare_receptor.py"]] := by decide

/-- Claim C3 (amended): for the grid backend's protein and ligand
preparation, conversion is skipped entirely when the target artifact
exists (unchanged filesystem, empty call trace), and after any successful
preparation a second invocation is a no-op reusing the artifact — so the
external conversion runs at most once across two calls.  (The QuickVina
adapter's preparation lacks the existence check; see the
counterexample.) -/
theorem adgpu_conversion_idempotent :
    (∀ (w : AdWorld) (fs : FS) (p : FPath),
      fsExists fs (pdbqtSibling p) = true →
      _prepare_protein_pdbqt w fs p = (Except.ok (pdbqtSibling p), fs, [])) ∧
    (∀ (w : AdWorld) (fs : FS) (p : FPath),
      fsExists fs (pdbqtSibling p) = true →
      _prepare_ligand_pdbqt w fs p = (Except.ok (pdbqtSibling p), fs, [])) ∧
    (∀ (w1 w2 : AdWorld) (fs : FS) (p tgt : FPath) (fs1 : FS) (c1 : List ExtCall),
      _prepare_protein_pdbqt w1 fs p = (Except.ok tgt, fs1, c1) →
      _prepare_protein_pdbqt w2 fs1 p = (Except.ok (pdbqtSibling p), fs1, [])) ∧
    (∀ (w1 w2 : AdWorld) (fs : FS) (p tgt : FPath) (fs1 : FS) (c1 : List ExtCall),
      _prepare_ligand_pdbqt w1 fs p = (Except.ok tgt, fs1, c1) →
      _prepare_ligand_pdbqt w2 fs1 p = (Except.ok (pdbqtSibling p), fs1, [])) := by
  have hp : ∀ (w : AdWorld) (fs : FS) (p : FPath),
      fsExists fs (pdbqtSibling p) = true →
      _prepare_protein_pdbqt w fs p = (Except.ok (pdbqtSibling p), fs, []) := by
    intro w fs p h
    unfold _prepare_protein_pdbqt
    rw [if_pos h]
  have hl : ∀ (w : AdWorld) (fs : FS) (p : FPath),
      fsExists fs (pdbqtSibling p) = true →
      _prepare_ligand_pdbqt w fs p = (Except.ok (pdbqtSibling p), fs, []) := by
    intro w fs p h
    unfold _prepare_ligand_pdbqt
    rw [if_pos h]
  exact ⟨hp, hl,
    fun w1 w2 fs p tgt fs1 c1 h => hp w2 fs1 p (prep_protein_ok_exists w1 fs p tgt fs1 c1 h),
    fun w1 w2 fs p tgt fs1 c1 h => hl w2 fs1 p (prep_ligand_ok_exists w1 fs p tgt fs1 c1 h)⟩

/-- Witness for C3 (amended) on a concrete filesystem already holding the
artifact: the preparation is a no-op with an empty call trace. -/
theorem adgpu_conversion_idempotent_witness :
    _prepare_protein_pdbqt exAW exFsTgt ["data", "prot.pdb"] =
      (Except.ok (pdbqtSibling ["data", "prot.pdb"]), exFsTgt, []) :=
  adgpu_conversion_idempotent.1 exAW exFsTgt ["data", "prot.pdb"] (by decide)

/-- Claim C9: when the recorded protein path does not exist verbatim but
has a "data" segment, the façade re-roots it beneath DATA_ROOT and retries:
an existing re-rooted path is used, and a still-absent one raises the
missing-input `FileNotFoundError`, which the façade converts to
"no score". -/
theorem protein_path_reroot (w : AdWorld) (fs : FS) (row : Row) (mol : Mol)
    (h1 : fsExists fs row.proteinPath = false)
    (h2 : row.proteinPath.contains "data" = true) :
    (fsExists fs (rerootOf w.dataRoot row.proteinPath) = true →
      resolveProteinPath fs w.dataRoot row.proteinPath =
        Except.ok (rerootOf w.dataRoot row.proteinPath)) ∧
    (fsExists fs (rerootOf w.dataRoot row.proteinPath) = false →
      resolveProteinPath fs w.dataRoot row.proteinPath =
        Except.error Err.fileNotFound ∧
      (row.molecule = some mol →
        (autodock_gpu_score w fs row).1 = Except.ok none)) := by
  have h2' : "data" ∈ row.proteinPath := by simpa using h2
  constructor
  · intro hr
    simp [resolveProteinPath, h1, h2', hr]
  · intro hr
    have hres : resolveProteinPath fs w.dataRoot row.proteinPath =
        Except.error Err.fileNotFound := by
      simp [resolveProteinPath, h1, h2', hr]
    refine ⟨hres, fun hm => ?_⟩
    have hb : (autodock_gpu_score_body w fs row).1 = Except.error Err.fileNotFound := by
      simp [autodock_gpu_score_body, hm, hres]
    exact facadeCatch_ok_none _ (Or.inr ⟨_, hb⟩)

/-- Witness for C9 at a concrete relocated dataset: the verbatim and the
re-rooted path are both absent, so the resolution raises and the façade
returns "no score". -/
theorem protein_path_reroot_witness :
    resolveProteinPath [] exAW.dataRoot exRowSome.proteinPath =
      Except.error Err.fileNotFound ∧
    (autodock_gpu_score exAW [] exRowSome).1 = Except.ok none := by
  have h := (protein_path_reroot exAW [] exRowSome exMol (by decide) (by decide)).2
    (by decide)
  exact ⟨h.1, h.2 rfl⟩

/-- The autogrid stage never launches the docking binary. -/
theorem run_autogrid_no_autodock (w : AdWorld) :
    ExtCall.autodockRun ∉ (_run_autogrid w).2 := by
  unfold _run_autogrid
  cases hfr : (findAutogridAux w.probe (autogridCandidates w)).1 with
  | none => simp [hfr]
  | some c => by_cases hz : w.autogridExit = 0 <;> simp [hfr, hz]

/-- With no accepted candidate or a non-zero autogrid exit, the autogrid
stage raises `RuntimeError`. -/
theorem run_autogrid_fails (w : AdWorld)
    (h : findAutogrid w = none ∨ w.autogridExit ≠ 0) :
    (_run_autogrid w).1 = Except.error Err.runtimeError := by
  unfold _run_autogrid
  cases hfr : (findAutogridAux w.probe (autogridCandidates w)).1 with
  | none => simp [hfr]
  | some c =>
    have hz : w.autogridExit ≠ 0 := by
      rcases h with h | h
      · rw [findAutogrid, hfr] at h
        cases h
      · exact h
    simp [hfr, hz]

/-- Under a failing grid-generation stage, the workspace body of the
grid adapter yields "no score" or raises, and never launches the docking
binary. -/
theorem adgpu_body_autogrid_fail (w : AdWorld) (fsT : FS) (pP lP : FPath)
    (h : findAutogrid w = none ∨ w.autogridExit ≠ 0) :
    ((adgpuTmpBody w fsT pP lP).1 = Except.ok none ∨
      ∃ e, (adgpuTmpBody w fsT pP lP).1 = Except.error e) ∧
    ExtCall.autodockRun ∉ (adgpuTmpBody w fsT pP lP).2.2 := by
  have hag := run_autogrid_fails w h
  have hnm := run_autogrid_no_autodock w
  unfold adgpuTmpBody
  cases hrd : fsRead fsT pP with
  | none => simp [hrd]
  | some content =>
    simp only [hrd]
    split
    · simp
    · simp only [hag]
      simp [hnm]

/-- The protein preparation never launches the docking binary. -/
theorem prep_protein_no_autodock (w : AdWorld) (fs : FS) (p : FPath) :
    ExtCall.autodockRun ∉ (_prepare_protein_pdbqt w fs p).2.2 := by
  unfold _prepare_protein_pdbqt
  by_cases he : fsExists fs (pdbqtSibling p) = true
  · simp [he]
  · by_cases ho : w.obabelProteinOk = true <;> simp [he, ho]

/-- The ligand preparation never launches the docking binary. -/
theorem prep_ligand_no_autodock (w : AdWorld) (fs : FS) (p : FPath) :
    ExtCall.autodockRun ∉ (_prepare_ligand_pdbqt w fs p).2.2 := by
  unfold _prepare_ligand_pdbqt
  by_cases he : fsExists fs (pdbqtSibling p) = true
  · simp [he]
  · by_cases ho : w.obabelLigandOk = true <;> simp [he, ho]

/-- Under a failing grid-generation stage, the whole grid scoring
computation yields "no score" or raises, and never launches the docking
binary. -/
theorem calc_adgpu_fail (w : AdWorld) (fs : FS) (pP lP : FPath) (mol : Mol)
    (h : findAutogrid w = none ∨ w.autogridExit ≠ 0) :
    ((_calculate_autodock_gpu_score w fs pP lP mol).1 = Except.ok none ∨
      ∃ e, (_calculate_autodock_gpu_score w fs pP lP mol).1 = Except.error e) ∧
    ExtCall.autodockRun ∉ (_calculate_autodock_gpu_score w fs pP lP mol).2.2 := by
  unfold _calculate_autodock_gpu_score
  cases hcm : mol.confOk with
  | false => simp
  | true =>
    simp only [if_true]
    split
    · next e fs1 c1 heq =>
      have hnp := prep_protein_no_autodock w fs pP
      rw [heq] at hnp
      simpa using hnp
    · next pP' fs1 c1 heq =>
      have hnp := prep_protein_no_autodock w fs pP
      rw [heq] at hnp
      simp only at hnp
      split
      · next e fs2 c2 heq2 =>
        have hnl := prep_ligand_no_autodock w fs1 lP
        rw [heq2] at hnl
        simp only at hnl
        simp [hnp, hnl]
      · next lP' fs2 c2 heq2 =>
        have hnl := prep_ligand_no_autodock w fs1 lP
        rw [heq2] at hnl
        simp only at hnl
        have hb := adgpu_body_autogrid_fail w (fsWrite fs2 (tmpPathOf w) []) pP' lP' h
        simp [withTempDir, hnp, hnl, hb.1, hb.2]

/-- Under a failing grid-generation stage, the body of the grid façade
yields "no score" or raises, and never launches the docking binary. -/
theorem body_autogrid_fail (w : AdWorld) (fs : FS) (row : Row)
    (h : findAutogrid w = none ∨ w.autogridExit ≠ 0) :
    ((autodock_gpu_score_body w fs row).1 = Except.ok none ∨
      ∃ e, (autodock_gpu_score_body w fs row).1 = Except.error e) ∧
    ExtCall.autodockRun ∉ (autodock_gpu_score_body w fs row).2.2 := by
  unfold autodock_gpu_score_body
  cases hm : row.molecule with
  | none => simp
  | some mol =>
    cases hres : resolveProteinPath fs w.dataRoot row.proteinPath with
    | error e => simp
    | ok pPath => exact calc_adgpu_fail w fs pPath row.moleculePath mol h

/-- Claim C6: in the grid backend, when no autogrid binary is accepted
among the probed candidates, or autogrid exits non-zero, the request
yields "no score" and the docking-GPU binary is never invoked. -/
theorem autogrid_failure_aborts_request (w : AdWorld) (fs : FS) (row : Row)
    (h : findAutogrid w = none ∨ w.autogridExit ≠ 0) :
    (autodock_gpu_score w fs row).1 = Except.ok none ∧
    ExtCall.autodockRun ∉ (autodock_gpu_score w fs row).2.2 := by
  have hb := body_autogrid_fail w fs row h
  refine ⟨facadeCatch_ok_none _ hb.1, ?_⟩
  show ExtCall.autodockRun ∉ (facadeCatch (autodock_gpu_score_body w fs row)).2.2
  rw [facadeCatch_snd]
  exact hb.2

/-- Witness for C6 in a world where every autogrid candidate fails to
launch. -/
theorem autogrid_failure_aborts_request_witness :
    (autodock_gpu_score exAW [] exRowSome).1 = Except.ok none ∧
    ExtCall.autodockRun ∉ (autodock_gpu_score exAW [] exRowSome).2.2 :=
  autogrid_failure_aborts_request exAW [] exRowSome (Or.inl (by decide))

/-- Writing outside the workspace preserves workspace emptiness. -/
theorem noneUnder_write (tmp : FPath) (fs : FS) (t : FPath) (c : List String)
    (h : noneUnder tmp fs) (ht : tmp.isPrefixOf t = false) :
    noneUnder tmp (fsWrite fs t c) := by
  intro q hq
  have hne : t ≠ q := by
    intro he
    rw [he, hq] at ht
    cases ht
  have hf := h q hq
  show ((t, c) :: fs).any (fun e => decide (e.1 = q)) = false
  rw [List.any_cons, Bool.or_eq_false_iff]
  exact ⟨decide_eq_false hne, hf⟩

/-- After removing the workspace nothing below it exists. -/
theorem noneUnder_removeUnder (tmp : FPath) (fs : FS) :
    noneUnder tmp (fsRemoveUnder fs tmp) := by
  intro q hq
  unfold fsRemoveUnder fsExists
  rw [List.any_eq_false]
  intro e he
  rw [List.mem_filter] at he
  obtain ⟨-, hpe⟩ := he
  rw [Bool.not_eq_true'] at hpe
  simp only [decide_eq_true_eq]
  intro heq
  rw [heq, hq] at hpe
  cases hpe

/-- The protein preparation writes only its sibling artifact, so a fresh
workspace stays empty across it. -/
theorem prep_protein_noneUnder (w : AdWorld) (fs : FS) (p tmp : FPath)
    (h : noneUnder tmp fs) (ht : tmp.isPrefixOf (pdbqtSibling p) = false) :
    noneUnder tmp (_prepare_protein_pdbqt w fs p).2.1 := by
  unfold _prepare_protein_pdbqt
  by_cases he : fsExists fs (pdbqtSibling p) = true
  · simpa [he] using h
  · by_cases ho : w.obabelProteinOk = true
    · simpa [he, ho] using noneUnder_write tmp fs _ _ h ht
    · simpa [he, ho] using h

/-- The ligand preparation writes only its sibling artifact, so a fresh
workspace stays empty across it. -/
theorem prep_ligand_noneUnder (w : AdWorld) (fs : FS) (p tmp : FPath)
    (h : noneUnder tmp fs) (ht : tmp.isPrefixOf (pdbqtSibling p) = false) :
    noneUnder tmp (_prepare_ligand_pdbqt w fs p).2.1 := by
  unfold _prepare_ligand_pdbqt
  by_cases he : fsExists fs (pdbqtSibling p) = true
  · simpa [he] using h
  · by_cases ho : w.obabelLigandOk = true
    · simpa [he, ho] using noneUnder_write tmp fs _ _ h ht
    · simpa [he, ho] using h

/-- On every exit path of the grid scoring computation the workspace is
absent: before the workspace block only outside artifacts are written, and
the block itself ends in `fsRemoveUnder`. -/
theorem calc_noneUnder (w : AdWorld) (fs : FS) (pP lP : FPath) (mol : Mol)
    (h : noneUnder (tmpPathOf w) fs)
    (hp : (tmpPathOf w).isPrefixOf (pdbqtSibling pP) = false)
    (hl : (tmpPathOf w).isPrefixOf (pdbqtSibling lP) = false) :
    noneUnder (tmpPathOf w) (_calculate_autodock_gpu_score w fs pP lP mol).2.1 := by
  unfold _calculate_autodock_gpu_score
  cases hcm : mol.confOk with
  | false => simpa using h
  | true =>
    simp only [if_true]
    split
    · next e fs1 c1 heq =>
      have h1 := prep_protein_noneUnder w fs pP (tmpPathOf w) h hp
      rw [heq] at h1
      simpa using h1
    · next pP' fs1 c1 heq =>
      have h1 := prep_protein_noneUnder w fs pP (tmpPathOf w) h hp
      rw [heq] at h1
      simp only at h1
      split
      · next e fs2 c2 heq2 =>
        have h2 := prep_ligand_noneUnder w fs1 lP (tmpPathOf w) h1 hl
        rw [heq2] at h2
        simpa using h2
      · next lP' fs2 c2 heq2 =>
        simpa [withTempDir] using
          noneUnder_removeUnder (tmpPathOf w)
            (adgpuTmpBody w (fsWrite fs2 (tmpPathOf w) []) pP' lP').2.1

/-- A normally returned resolved protein path is the verbatim path or its
re-rooted form. -/
theorem resolveProteinPath_ok_cases (fs : FS) (dr p q : FPath)
    (h : resolveProteinPath fs dr p = Except.ok q) :
    q = p ∨ q = rerootOf dr p := by
  unfold resolveProteinPath at h
  by_cases h1 : fsExists fs p = true
  · rw [if_pos h1] at h
    cases h
    exact Or.inl rfl
  · rw [if_neg h1] at h
    by_cases h2 : p.contains "data" = true
    · rw [if_pos h2] at h
      by_cases h3 : fsExists fs (rerootOf dr p) = true
      · rw [if_pos h3] at h
        cases h
        exact Or.inr rfl
      · rw [if_neg h3] at h
        cases h
    · rw [if_neg h2] at h
      cases h
      exact Or.inl rfl

/-- Claim C8: with a fresh workspace name, after a grid-backend request
completes — normally or through any failure path — no path below the
ephemeral workspace directory exists, the directory itself included. -/
theorem workspace_always_removed (w : AdWorld) (fs : FS) (row : Row)
    (h : tmpFresh w fs row = true) :
    ∀ p : FPath, (tmpPathOf w).isPrefixOf p = true →
      fsExists (autodock_gpu_score w fs row).2.1 p = false := by
  unfold tmpFresh at h
  simp only [Bool.and_eq_true, Bool.not_eq_true'] at h
  obtain ⟨⟨⟨hall, hfp⟩, hfr⟩, hfl⟩ := h
  have hfs : noneUnder (tmpPathOf w) fs := by
    intro q hq
    rw [List.all_eq_true] at hall
    unfold fsExists
    rw [List.any_eq_false]
    intro e he
    have hpe := hall e he
    rw [Bool.not_eq_true'] at hpe
    simp only [decide_eq_true_eq]
    intro heq
    rw [heq, hq] at hpe
    cases hpe
  have hbody : noneUnder (tmpPathOf w) (autodock_gpu_score_body w fs row).2.1 := by
    unfold autodock_gpu_score_body
    cases hm : row.molecule with
    | none => simpa using hfs
    | some mol =>
      cases hres : resolveProteinPath fs w.dataRoot row.proteinPath with
      | error e => simpa using hfs
      | ok pPath =>
        rcases resolveProteinPath_ok_cases fs w.dataRoot row.proteinPath pPath hres
          with hq | hq
        · rw [hq]
          exact calc_noneUnder w fs _ _ _ hfs hfp hfl
        · rw [hq]
          exact calc_noneUnder w fs _ _ _ hfs hfr hfl
  intro p hp
  show fsExists (facadeCatch (autodock_gpu_score_body w fs row)).2.1 p = false
  rw [facadeCatch_snd]
  exact hbody p hp

/-- Witness for C8 at a concrete request with a fresh workspace name. -/
theorem workspace_always_removed_witness :
    tmpFresh exAW [] exRowNone = true ∧
    fsExists (autodock_gpu_score exAW [] exRowNone).2.1 ["tmp", "t0"] = false :=
  ⟨by decide,
   workspace_always_removed exAW [] exRowNone (by decide) ["tmp", "t0"] (by decide)⟩
